import Mathlib

/-!
# Verification of the nasdaq-public-api core against its specification

This development gives a shallow embedding, in Lean 4, of the session manager,
value normalizers, safe nested lookup and fetcher row-processing code of the
nasdaq-public-api repository, and proves (or refutes) the specified properties
of those components.

Modelling conventions:
* Python runtime values are embedded as the inductive type `PyVal`.
  Python floats are modelled as rational numbers; float-range overflow and
  inf/nan are outside the model.  Python dictionaries are association lists
  with string (or atomic `PyVal`) keys, one entry per key, in insertion order.
* Python exceptions are embedded with `Except PyExc`; a `try/except` block
  becomes a `match` on the `Except` value that catches exactly the listed
  exception kinds.
* Wall-clock time (`datetime.now()`) is passed explicitly as an integer number
  of seconds; the sub-second fraction of `total_seconds()` is not modelled.
* Each embedded definition keeps the name of the source function it
  translates (a leading underscore is dropped where Lean requires it).
-/

namespace NasdaqSpec

instance {ε α : Type} [DecidableEq ε] [DecidableEq α] : DecidableEq (Except ε α) := fun
  | .ok a, .ok b => decidable_of_iff (a = b) (by simp)
  | .ok _, .error _ => isFalse (by simp)
  | .error _, .ok _ => isFalse (by simp)
  | .error e, .error f => decidable_of_iff (e = f) (by simp)

/-- Kinds of Python exception relevant to the embedded code.
`overflowError` is an `ArithmeticError` in CPython, so the
`except (ValueError, TypeError, AttributeError)` clauses of this code base
never catch it. -/
inductive PyExc where
  | valueError : PyExc
  | typeError : PyExc
  | keyError : PyExc
  | attributeError : PyExc
  | indexError : PyExc
  | overflowError : PyExc
deriving DecidableEq, Repr

/-- A calendar date-time, the model of Python `datetime.datetime`. -/
structure PyDT where
  year : Nat
  month : Nat
  day : Nat
  hour : Nat
  minute : Nat
  second : Nat
deriving DecidableEq, Repr

/-- The model of a Python runtime value as it occurs in this code base:
`None`, booleans, ints (arbitrary precision), floats (modelled as rationals;
overflow, inf and nan are outside the model), strings, lists, string-keyed
dictionaries (association lists in insertion order, one entry per key) and
`datetime` objects. -/
inductive PyVal where
  | none : PyVal
  | bool : Bool → PyVal
  | int : Int → PyVal
  | float : Rat → PyVal
  | str : String → PyVal
  | list : List PyVal → PyVal
  | dict : List (String × PyVal) → PyVal
  | dt : PyDT → PyVal
deriving Repr

/-- Python truthiness (`bool(v)`): `None`, `False`, zero, the empty string and
empty containers are falsy; `datetime` objects are always truthy. -/
def pyTruthy : PyVal → Bool
  | .none => false
  | .bool b => b
  | .int n => n ≠ 0
  | .float q => q ≠ 0
  | .str s => s ≠ ""
  | .list xs => ¬ xs.isEmpty
  | .dict xs => ¬ xs.isEmpty
  | .dt _ => true

/-- Whether a value is a Python `dict` (`isinstance(v, dict)`). -/
def isDict : PyVal → Bool
  | .dict _ => true
  | _ => false

/-- Whether a value is a Python `str` (`isinstance(v, str)`). -/
def isStr : PyVal → Bool
  | .str _ => true
  | _ => false

/-- Whether a value is hashable in Python: every value of this model except
lists and dictionaries. -/
def pyHashable : PyVal → Bool
  | .list _ => false
  | .dict _ => false
  | _ => true

/-- The numeric value of a Python number, when the value is one
(`bool` is a subclass of `int` with values 0 and 1). -/
def pyNumVal : PyVal → Option Rat
  | .bool b => some (if b then 1 else 0)
  | .int n => some (n : Rat)
  | .float q => some q
  | _ => Option.none

/-- Python `==` on hashable (atomic) values: numbers of any numeric type
compare by value (`1 == 1.0 == True`), strings and datetimes compare
componentwise, `None` equals only itself, and values of unrelated types are
unequal.  Container equality is never needed here because containers are
unhashable and the embedded code only compares dictionary keys and sentinel
atoms. -/
def pyEqAtom (a b : PyVal) : Bool :=
  match pyNumVal a, pyNumVal b with
  | some x, some y => x = y
  | _, _ =>
    match a, b with
    | .none, .none => true
    | .str x, .str y => x = y
    | .dt x, .dt y => x = y
    | _, _ => false

/-- Lookup in a string-keyed dictionary (`d.get(k)` without default). -/
def dictLookup (es : List (String × PyVal)) (k : String) : Option PyVal :=
  match es.find? (fun p => p.1 = k) with
  | some p => some p.2
  | Option.none => Option.none

/-- `dict.get(key, default)` on a value known to be a dictionary. -/
def dictGetD (es : List (String × PyVal)) (k : String) (default : PyVal) : PyVal :=
  (dictLookup es k).getD default

/-- `value[key]` subscription on an arbitrary value: `KeyError` when the key
is absent, `TypeError` when the value is not a dictionary. -/
def pySubscript (v : PyVal) (k : String) : Except PyExc PyVal :=
  match v with
  | .dict es =>
    match dictLookup es k with
    | some x => .ok x
    | Option.none => .error .keyError
  | _ => .error .typeError

/-!
## The safe nested lookup (`src/nasdaq/core/utils.py`, `safe_get_nested`)

The source walks the dictionary key by key:
for each key it first checks `isinstance(data, dict)` and returns the default
if the check fails, then rebinds `data = data.get(key, default)` — note that a
missing key substitutes the default value itself into the traversal, which
continues with the remaining keys.  The surrounding `try/except AttributeError`
is unreachable in the model because `.get` is only called on dictionaries.
-/

/-- Embedding of `safe_get_nested(data, *keys, default=...)`. -/
def safe_get_nested (data : PyVal) (keys : List String) (default : PyVal) : PyVal :=
  match keys with
  | [] => data
  | k :: ks =>
    match data with
    | .dict es => safe_get_nested (dictGetD es k default) ks default
    | _ => default

/-- Modelled from the spec: the nested lookup as the specification words it —
walk the object key by key and return the default value the instant any
intermediate value is not an object or a key is missing. -/
def spec_get_nested (data : PyVal) (keys : List String) (default : PyVal) : PyVal :=
  match keys with
  | [] => data
  | k :: ks =>
    match data with
    | .dict es =>
      match dictLookup es k with
      | some v => spec_get_nested v ks default
      | Option.none => default
    | _ => default

/-!
## Character and string helpers

Models of the Python string operations used by the normalizers:
`str.strip()`, single-character `str.replace(c, "")`, suffix tests, and the
numeric conversions `float(s)` and `int(s)`.  All operate on `List Char`.
-/

/-- The ASCII whitespace characters stripped by Python `str.strip()`
(unicode whitespace is outside the model). -/
def pyIsSpace (c : Char) : Bool :=
  c == ' ' || c == '\t' || c == '\n' || c == '\r' || c == '\x0b' || c == '\x0c'

/-- `str.strip()`: drop leading and trailing whitespace. -/
def pyStrip (l : List Char) : List Char :=
  ((l.dropWhile pyIsSpace).reverse.dropWhile pyIsSpace).reverse

/-- Single-character `str.replace(c, "")`: remove every occurrence of `c`. -/
def removeChar (c : Char) (l : List Char) : List Char :=
  l.filter (fun x => x ≠ c)

/-- Whether the character list ends with the character `c`
(`str.endswith(c)`). -/
def endsWithChar (l : List Char) (c : Char) : Bool :=
  l.getLast? = some c

/-- `s[:-1]`: drop the final character. -/
def dropLastChar (l : List Char) : List Char :=
  l.dropLast

/-- Interpret a digit run as a natural number, given an accumulator. -/
def digitsToNat (acc : Nat) : List Char → Nat
  | [] => acc
  | c :: cs => digitsToNat (acc * 10 + (c.toNat - '0'.toNat)) cs

/-- The sign denoted by an optional leading `+`/`-`. -/
def signOf (l : List Char) : Int :=
  match l with
  | '-' :: _ => -1
  | _ => 1

/-- Drop an optional leading `+`/`-`. -/
def afterSign (l : List Char) : List Char :=
  match l with
  | '+' :: rest => rest
  | '-' :: rest => rest
  | _ => l

/-- The exact rational value of the decimal literal with sign `sign`, integer
digits `ip`, fraction digits `fp` and decimal exponent `esign * e`. -/
def decRat (sign : Int) (ip fp : List Char) (esign : Int) (e : Nat) : Rat :=
  if esign ≥ 0 then
    mkRat (sign * Int.ofNat (digitsToNat 0 (ip ++ fp) * Nat.pow 10 e)) (Nat.pow 10 fp.length)
  else
    mkRat (sign * Int.ofNat (digitsToNat 0 (ip ++ fp))) (Nat.pow 10 fp.length * Nat.pow 10 e)

/-- Split the optional `.`-led fraction-digit run off the character list. -/
def fracSplit (l : List Char) : List Char × List Char :=
  match l with
  | '.' :: rest => (rest.takeWhile Char.isDigit, rest.dropWhile Char.isDigit)
  | _ => ([], l)

/-- The exponent tail of a float literal: an optional sign and a nonempty
digit run that must exhaust the input. -/
def floatExpTail (sign : Int) (ip fp l : List Char) : Option Rat :=
  if (afterSign l).takeWhile Char.isDigit = [] then Option.none
  else if (afterSign l).dropWhile Char.isDigit ≠ [] then Option.none
  else some (decRat sign ip fp (signOf l)
    (digitsToNat 0 ((afterSign l).takeWhile Char.isDigit)))

/-- The mantissa-and-exponent body of a float literal: at least one digit in
the mantissa, then nothing, or an `e`/`E` exponent tail. -/
def floatBody (sign : Int) (ip fp rest : List Char) : Option Rat :=
  if ip = [] ∧ fp = [] then Option.none
  else
    match rest with
    | [] => some (decRat sign ip fp 1 0)
    | 'e' :: r => floatExpTail sign ip fp r
    | 'E' :: r => floatExpTail sign ip fp r
    | _ => Option.none

/-- Model of Python `float(s)` on a string: optional surrounding whitespace,
optional sign and a finite decimal literal `digits [. digits] [e[sign]digits]`
with at least one digit in the mantissa, valued exactly (a rational).
Failure (the result `none`) stands for `ValueError`.  The `inf`/`nan`
literals and digit-group underscores accepted by CPython are outside the
model. -/
def pyFloatOfChars (l : List Char) : Option Rat :=
  floatBody (signOf (pyStrip l)) ((afterSign (pyStrip l)).takeWhile Char.isDigit)
    (fracSplit ((afterSign (pyStrip l)).dropWhile Char.isDigit)).1
    (fracSplit ((afterSign (pyStrip l)).dropWhile Char.isDigit)).2

/-- Model of Python `int(s)` on a string: optional surrounding whitespace,
optional sign and a nonempty digit run that exhausts the string (digit-group
underscores are outside the model).  Failure stands for `ValueError`. -/
def pyIntOfChars (l : List Char) : Option Int :=
  if (afterSign (pyStrip l)).takeWhile Char.isDigit = [] then Option.none
  else if (afterSign (pyStrip l)).dropWhile Char.isDigit ≠ [] then Option.none
  else some (signOf (pyStrip l) *
    Int.ofNat (digitsToNat 0 ((afterSign (pyStrip l)).takeWhile Char.isDigit)))

/-- Truncation of a rational toward zero, the model of Python `int(float)`. -/
def ratTrunc (q : Rat) : Int :=
  q.num.tdiv (Int.ofNat q.den)

/-!
## The monetary normalizer (`src/nasdaq/models/base.py`, `parse_monetary_value`)

The source first tests `value is None or value in a set holding "" and "N/A"`
(set membership hashes the value, so an unhashable value raises `TypeError`
before anything else), then passes numbers through `float(value)`, returns
`None` for any remaining non-string, and otherwise strips whitespace, `$` and
`,`, peels one `M`/`B`/`T` suffix, peels a trailing `%`, and multiplies the
`float(...)` of the rest by the suffix multiplier, dividing by 100 when a `%`
was peeled.  The only exception inside the string path, `ValueError` from
`float`, is caught.
-/

/-- The cleaning step of `parse_monetary_value`:
`value.strip().replace("$", "").replace(",", "")`. -/
def cleanMonetary (s : String) : List Char :=
  removeChar ',' (removeChar '$' (pyStrip s.data))

/-- The suffix-and-percent phase of `parse_monetary_value` on the cleaned
string: peel one `M`/`B`/`T` multiplier suffix, then a trailing `%`, parse the
rest with `float` and scale. -/
def parseMonetaryStr (s : String) : Option Rat :=
  mulPhase (cleanMonetary s)
where
  /-- Percent handling and the final `float(...) * multiplier` step. -/
  pctPhase (mult : Rat) (c : List Char) : Option Rat :=
    if endsWithChar c '%' then
      match pyFloatOfChars (dropLastChar c) with
      | some q => some (q * mult / 100)
      | Option.none => Option.none
    else
      match pyFloatOfChars c with
      | some q => some (q * mult)
      | Option.none => Option.none
  /-- Unit-suffix handling: `M`, `B`, `T` multipliers. -/
  mulPhase (c : List Char) : Option Rat :=
    if endsWithChar c 'M' then pctPhase 1000000 (dropLastChar c)
    else if endsWithChar c 'B' then pctPhase 1000000000 (dropLastChar c)
    else if endsWithChar c 'T' then pctPhase 1000000000000 (dropLastChar c)
    else pctPhase 1 c

/-- Embedding of `parse_monetary_value(value)`.  The result is
`.ok r` for a normal return (`r = none` standing for Python `None`) and
`.error e` for an uncaught exception. -/
def parse_monetary_value (v : PyVal) : Except PyExc (Option Rat) :=
  match v with
  | .none => .ok Option.none
  | _ =>
    if pyHashable v = false then .error .typeError
    else if pyEqAtom v (.str "") ∨ pyEqAtom v (.str "N/A") then .ok Option.none
    else
      match pyNumVal v with
      | some q => .ok (some q)
      | Option.none =>
        match v with
        | .str s => .ok (parseMonetaryStr s)
        | _ => .ok Option.none

/-- Model of Python `str(v)`.  For strings it is the identity; for the other
atoms it follows the CPython rendering of small values (the exact repr of
non-integral floats is abstracted, which no theorem below depends on). -/
def pyStrOf : PyVal → String
  | .none => "None"
  | .bool b => if b then "True" else "False"
  | .int n => toString n
  | .float q => if q.den = 1 then toString q.num ++ ".0" else toString q
  | .str s => s
  | .list _ => "<list>"
  | .dict _ => "<dict>"
  | .dt _ => "<datetime>"

/-!
## The value converter (`src/nasdaq/core/base_fetcher.py`, `_safe_convert_value`)

The source returns `None` for every falsy value and for the sentinel `N/A`;
otherwise it attempts the requested conversion (`"float"` after stripping
`$`, `,` and `%` from strings; `"int"` after stripping `,`; anything else is
`str(value)`), and a `try/except (ValueError, TypeError, AttributeError)`
around the conversion turns those three exception kinds — the only kinds the
conversions raise in the model — into `None`.
-/

/-- Model of Python `float(value)` on a non-string-prepared value: strings go
through the float grammar (`ValueError` on mismatch), numbers convert
exactly, anything else raises `TypeError`. -/
def pyFloatConv (v : PyVal) : Except PyExc Rat :=
  match v with
  | .str s =>
    match pyFloatOfChars s.data with
    | some q => .ok q
    | Option.none => .error .valueError
  | .bool b => .ok (if b then 1 else 0)
  | .int n => .ok (n : Rat)
  | .float q => .ok q
  | _ => .error .typeError

/-- Model of Python `int(value)`: strings go through the integer grammar
(`ValueError` on mismatch), ints and bools convert exactly, floats truncate
toward zero, anything else raises `TypeError`. -/
def pyIntConv (v : PyVal) : Except PyExc Int :=
  match v with
  | .str s =>
    match pyIntOfChars s.data with
    | some n => .ok n
    | Option.none => .error .valueError
  | .bool b => .ok (if b then 1 else 0)
  | .int n => .ok n
  | .float q => .ok (ratTrunc q)
  | _ => .error .typeError

/-- The `except (ValueError, TypeError, AttributeError)` clause of
`_safe_convert_value`: those three kinds become `None`, anything else
propagates. -/
def catchConv (r : Except PyExc PyVal) : Except PyExc (Option PyVal) :=
  match r with
  | .ok x => .ok (some x)
  | .error .valueError => .ok Option.none
  | .error .typeError => .ok Option.none
  | .error .attributeError => .ok Option.none
  | .error e => .error e

/-- The string-stripping step of the `"float"` path:
`value.replace("$", "").replace(",", "").replace("%", "")` on strings,
identity on everything else. -/
def stripFloatChars (v : PyVal) : PyVal :=
  match v with
  | .str s => .str (String.mk (removeChar '%' (removeChar ',' (removeChar '$' s.data))))
  | _ => v

/-- The string-stripping step of the `"int"` path: `value.replace(",", "")`
on strings, identity on everything else. -/
def stripIntChars (v : PyVal) : PyVal :=
  match v with
  | .str s => .str (String.mk (removeChar ',' s.data))
  | _ => v

/-- Embedding of `_safe_convert_value(value, conversion_type)` (the leading
underscore of the source name is dropped). -/
def safe_convert_value (v : PyVal) (conversion_type : String) : Except PyExc (Option PyVal) :=
  if pyTruthy v = false then .ok Option.none
  else if pyEqAtom v (.str "N/A") then .ok Option.none
  else if conversion_type = "float" then
    catchConv (Except.map PyVal.float (pyFloatConv (stripFloatChars v)))
  else if conversion_type = "int" then
    catchConv (Except.map PyVal.int (pyIntConv (stripIntChars v)))
  else
    catchConv (.ok (.str (pyStrOf v)))

/-!
## Overflow-aware refinement of the numeric conversions

The rational-number model above is exact, so it cannot raise where CPython
`float(int)` overflows.  The definitions below refine the two normalizers
that call `float(value)` on integers with the one failure mode that
exactness hides: CPython raises `OverflowError` precisely when the
magnitude of the integer rounds beyond the largest finite IEEE-754 double,
that is when `|n| ≥ 2^1024 - 2^970` (the tie at that midpoint rounds to
even, toward infinity).  Converted values remain exact rationals; only the
error path is refined.  IEEE infinities and nans themselves stay outside
the value model.
-/

/-- Whether CPython `float(n)` on the integer `n` raises `OverflowError`:
exactly when `|n|` is at or beyond the rounding boundary
`2^1024 - 2^970` of the largest finite double (written with shifts,
`Nat.shiftLeft 1 k = 2^k`). -/
def intOverflowsFloat (n : Int) : Bool :=
  n.natAbs ≥ Nat.shiftLeft 1 1024 - Nat.shiftLeft 1 970

/-- `pyFloatConv` refined with the `OverflowError` of `float(int)` on
integers beyond the double range. -/
def pyFloatConvOvf (v : PyVal) : Except PyExc Rat :=
  match v with
  | .str s =>
    match pyFloatOfChars s.data with
    | some q => .ok q
    | Option.none => .error .valueError
  | .bool b => .ok (if b then 1 else 0)
  | .int n => if intOverflowsFloat n = true then .error .overflowError else .ok (n : Rat)
  | .float q => .ok q
  | _ => .error .typeError

/-- `parse_monetary_value` refined with the `OverflowError` of its
`isinstance(value, int | float): return float(value)` branch, which sits
outside any `try` in the source; all other branches are those of
`parse_monetary_value`. -/
def parse_monetary_value_ovf (v : PyVal) : Except PyExc (Option Rat) :=
  match v with
  | .none => .ok Option.none
  | _ =>
    if pyHashable v = false then .error .typeError
    else if pyEqAtom v (.str "") ∨ pyEqAtom v (.str "N/A") then .ok Option.none
    else
      match v with
      | .bool b => .ok (some (if b then 1 else 0))
      | .int n =>
        if intOverflowsFloat n = true then .error .overflowError else .ok (some (n : Rat))
      | .float q => .ok (some q)
      | .str s => .ok (parseMonetaryStr s)
      | _ => .ok Option.none

/-- `_safe_convert_value` refined with the `OverflowError` of `float(value)`
on its `"float"` path; `catchConv` propagates that kind, since the `except`
clause of the source names only `ValueError`, `TypeError` and
`AttributeError`. -/
def safe_convert_value_ovf (v : PyVal) (conversion_type : String) : Except PyExc (Option PyVal) :=
  if pyTruthy v = false then .ok Option.none
  else if pyEqAtom v (.str "N/A") then .ok Option.none
  else if conversion_type = "float" then
    catchConv (Except.map PyVal.float (pyFloatConvOvf (stripFloatChars v)))
  else if conversion_type = "int" then
    catchConv (Except.map PyVal.int (pyIntConv (stripIntChars v)))
  else
    catchConv (.ok (.str (pyStrOf v)))

/-!
## The date normalizer (`src/nasdaq/models/base.py`, `parse_datetime_value`)

`parse_datetime_value` returns `None` for `None`, the empty string and
non-string non-datetime inputs, passes `datetime` objects through unchanged,
and otherwise tries `datetime.strptime(date_str.strip(), fmt)` for each
format in order, returning the first success; the `except ValueError` around
each attempt catches the only exception kind `strptime` raises in the model.

The `strptime` model follows the CPython `_strptime` regex semantics for the
directives `%m %d %Y %H %M %S %b` and `%%`, literal characters, and
whitespace runs (which match one or more whitespace characters, greedily and
without backtracking — equivalent for formats whose numeric directives are
separated by literals, as all formats in this repository are).  Formats with
directives outside this list are outside the model and fail like a bad
directive does in CPython (a `ValueError`).  After matching, the assembled
date is validated like the `datetime` constructor: years 1 to 9999 and a day
no larger than the month length.
-/

/-- One token of a strptime format string: a supported directive, a literal
character, or a whitespace run. -/
inductive FTok where
  | dir : Char → FTok
  | lit : Char → FTok
  | ws : FTok
deriving DecidableEq, Repr

/-- Tokenize a strptime format string; `none` stands for a format this model
does not cover (treated as a failing format, as a bad directive is). -/
def tokenizeFmt : List Char → Option (List FTok)
  | [] => some []
  | '%' :: c :: rest =>
    if c == 'm' || c == 'd' || c == 'Y' || c == 'H' || c == 'M' || c == 'S' || c == 'b' then
      (tokenizeFmt rest).map (FTok.dir c :: ·)
    else if c == '%' then (tokenizeFmt rest).map (FTok.lit '%' :: ·)
    else Option.none
  | ['%'] => Option.none
  | c :: rest =>
    if pyIsSpace c then (tokenizeFmt rest).map (FTok.ws :: ·)
    else (tokenizeFmt rest).map (FTok.lit c :: ·)

/-- Collapse runs of consecutive whitespace tokens into one, mirroring the
CPython replacement of whitespace runs in the format by a single `\s+`.  The
flag records whether the previous token was whitespace. -/
def collapseWs : Bool → List FTok → List FTok
  | _, [] => []
  | prevWs, FTok.ws :: ts =>
    if prevWs then collapseWs true ts else FTok.ws :: collapseWs true ts
  | _, t :: ts => t :: collapseWs false ts

/-- The numeric value of a digit character. -/
def dv (c : Char) : Nat :=
  c.toNat - '0'.toNat

/-- `%Y`: exactly four digits. -/
def matchYear : List Char → Option (Nat × List Char)
  | a :: b :: c :: d :: rest =>
    if a.isDigit && b.isDigit && c.isDigit && d.isDigit then
      some (dv a * 1000 + dv b * 100 + dv c * 10 + dv d, rest)
    else Option.none
  | _ => Option.none

/-- `%m`: the regex `1[0-2]|0[1-9]|[1-9]`, alternatives tried in order. -/
def matchMonth : List Char → Option (Nat × List Char)
  | c1 :: c2 :: rest =>
    if c1 == '1' && c2.isDigit && dv c2 ≤ 2 then some (10 + dv c2, rest)
    else if c1 == '0' && c2.isDigit && 1 ≤ dv c2 then some (dv c2, rest)
    else if c1.isDigit && 1 ≤ dv c1 then some (dv c1, c2 :: rest)
    else Option.none
  | [c1] => if c1.isDigit && 1 ≤ dv c1 then some (dv c1, []) else Option.none
  | [] => Option.none

/-- `%d`: the regex `3[01]|[12]\d|0[1-9]|[1-9]`, alternatives in order. -/
def matchDay : List Char → Option (Nat × List Char)
  | c1 :: c2 :: rest =>
    if c1 == '3' && (c2 == '0' || c2 == '1') then some (30 + dv c2, rest)
    else if (c1 == '1' || c1 == '2') && c2.isDigit then some (10 * dv c1 + dv c2, rest)
    else if c1 == '0' && c2.isDigit && 1 ≤ dv c2 then some (dv c2, rest)
    else if c1.isDigit && 1 ≤ dv c1 then some (dv c1, c2 :: rest)
    else Option.none
  | [c1] => if c1.isDigit && 1 ≤ dv c1 then some (dv c1, []) else Option.none
  | [] => Option.none

/-- `%H`: the regex `2[0-3]|[0-1]\d|\d`, alternatives in order. -/
def matchHour : List Char → Option (Nat × List Char)
  | c1 :: c2 :: rest =>
    if c1 == '2' && c2.isDigit && dv c2 ≤ 3 then some (20 + dv c2, rest)
    else if (c1 == '0' || c1 == '1') && c2.isDigit then some (10 * dv c1 + dv c2, rest)
    else if c1.isDigit then some (dv c1, c2 :: rest)
    else Option.none
  | [c1] => if c1.isDigit then some (dv c1, []) else Option.none
  | [] => Option.none

/-- `%M` and `%S`: the regex `[0-5]\d|\d`, alternatives in order. -/
def matchSixty : List Char → Option (Nat × List Char)
  | c1 :: c2 :: rest =>
    if c1.isDigit && dv c1 ≤ 5 && c2.isDigit then some (10 * dv c1 + dv c2, rest)
    else if c1.isDigit then some (dv c1, c2 :: rest)
    else Option.none
  | [c1] => if c1.isDigit then some (dv c1, []) else Option.none
  | [] => Option.none

/-- `%b`: a case-insensitive three-letter month abbreviation. -/
def matchMonthAbbr (l : List Char) : Option (Nat × List Char) :=
  match l with
  | a :: b :: c :: rest =>
    let w := String.mk [a.toLower, b.toLower, c.toLower]
    match ["jan", "feb", "mar", "apr", "may", "jun",
           "jul", "aug", "sep", "oct", "nov", "dec"].indexOf? w with
    | some i => some (i + 1, rest)
    | Option.none => Option.none
  | _ => Option.none

/-- Dispatch a directive character to its matcher. -/
def matchDirective (c : Char) (l : List Char) : Option (Nat × List Char) :=
  if c == 'Y' then matchYear l
  else if c == 'm' then matchMonth l
  else if c == 'd' then matchDay l
  else if c == 'H' then matchHour l
  else if c == 'b' then matchMonthAbbr l
  else matchSixty l

/-- Record a matched directive value into the date being assembled. -/
def applyDir (c : Char) (v : Nat) (acc : PyDT) : PyDT :=
  if c == 'Y' then { acc with year := v }
  else if c == 'm' || c == 'b' then { acc with month := v }
  else if c == 'd' then { acc with day := v }
  else if c == 'H' then { acc with hour := v }
  else if c == 'M' then { acc with minute := v }
  else { acc with second := v }

/-- Run a tokenized format against the input, requiring the input to be
consumed entirely. -/
def runFmt : List FTok → List Char → PyDT → Option PyDT
  | [], [], acc => some acc
  | [], _ :: _, _ => Option.none
  | FTok.ws :: ts, l, acc =>
    match l with
    | c :: rest =>
      if pyIsSpace c then runFmt ts (rest.dropWhile pyIsSpace) acc else Option.none
    | [] => Option.none
  | FTok.lit c :: ts, l, acc =>
    match l with
    | x :: rest => if x == c then runFmt ts rest acc else Option.none
    | [] => Option.none
  | FTok.dir c :: ts, l, acc =>
    match matchDirective c l with
    | some (v, rest) => runFmt ts rest (applyDir c v acc)
    | Option.none => Option.none

/-- Gregorian leap years. -/
def isLeapYear (y : Nat) : Bool :=
  y % 4 == 0 && (y % 100 != 0 || y % 400 == 0)

/-- The number of days in a month. -/
def daysInMonth (y m : Nat) : Nat :=
  if m == 2 then (if isLeapYear y then 29 else 28)
  else if m == 4 || m == 6 || m == 9 || m == 11 then 30
  else 31

/-- Model of `datetime.strptime(input, fmt)`: tokenize the format, match it
against the whole input starting from the CPython defaults (year 1900, month
and day 1, midnight), then validate the date like the `datetime` constructor.
`none` stands for `ValueError`. -/
def strptime (l fmt : List Char) : Option PyDT :=
  match tokenizeFmt fmt with
  | Option.none => Option.none
  | some ts0 =>
    match runFmt (collapseWs false ts0) l ⟨1900, 1, 1, 0, 0, 0⟩ with
    | Option.none => Option.none
    | some p =>
      if 1 ≤ p.year && p.day ≤ daysInMonth p.year p.month then some p else Option.none

/-- The format loop of `parse_datetime_value`: try
`strptime(date_str.strip(), fmt)` for each format in order, catching the
`ValueError` of a failed attempt, and return the first success. -/
def firstParse (s : String) : List String → Option PyDT
  | [] => Option.none
  | f :: fs =>
    match strptime (pyStrip s.data) f.data with
    | some d => some d
    | Option.none => firstParse s fs

/-- Embedding of `parse_datetime_value(date_str, formats)`.  All exceptions
raised inside (only `ValueError`, from `strptime`) are caught, so the
function is total and needs no `Except`. -/
def parse_datetime_value (v : PyVal) (formats : List String) : Option PyDT :=
  match v with
  | .none => Option.none
  | .str s => if s = "" then Option.none else firstParse s formats
  | .dt d => some d
  | _ => Option.none

/-!
## The session manager (`src/nasdaq/core/cookie_manager.py`, `NASDAQCookieManager`)

The constructor stores the refresh interval, sets `last_refresh_time = None`
and copies the base header dictionary.  `needs_refresh` is true when
`last_refresh_time` is `None` or more than `refresh_interval` seconds old.
`refresh_cookies` short-circuits to `True` when no refresh is needed, and
otherwise drives a browser; any exception is caught and logged, and the
method returns `True` on every path.  With zero cookies it pops the `cookie`
header; with cookies it joins `name=value` pairs with `"; "` into the
`cookie` header.  Notably, no path of `refresh_cookies` ever assigns
`self.last_refresh_time` (unlike the legacy `NASDAQCookieManager` in
`src/nasdaq.py`, which sets it on all three success paths).

The browser interaction is an external collaborator: its outcome is passed in
as either a failure (any exception) or a cookie list, each cookie carrying
the `.get("name")` and `.get("value")` results.  Wall-clock instants are
passed explicitly as integer seconds.
-/

/-- The state of a `NASDAQCookieManager`. -/
structure NASDAQCookieManager where
  refresh_interval : Int
  last_refresh_time : Option Int
  headers : List (String × String)
deriving DecidableEq, Repr

/-- `COOKIE_REFRESH_INTERVAL_SECONDS = 1800`. -/
def COOKIE_REFRESH_INTERVAL_SECONDS : Int := 1800

/-- The constructor: interval stored, `last_refresh_time = None`, headers
copied from the base header dictionary. -/
def NASDAQCookieManager.init (refresh_interval : Int)
    (base_headers : List (String × String)) : NASDAQCookieManager :=
  ⟨refresh_interval, Option.none, base_headers⟩

/-- Embedding of `needs_refresh()` at the instant `now`. -/
def needs_refresh (m : NASDAQCookieManager) (now : Int) : Bool :=
  match m.last_refresh_time with
  | Option.none => true
  | some t => now - t > m.refresh_interval

/-- The outcome of the browser collaborator inside `refresh_cookies`: either
an exception somewhere in the launch/navigate/read sequence, or the cookie
list, each cookie reduced to its `name` and `value` fields (absent → `None`). -/
inductive BrowserOutcome where
  | failure : BrowserOutcome
  | cookies : List (Option String × Option String) → BrowserOutcome

/-- Embedding of `_extract_cookies_string(cookies)`: keep the cookies whose
`name` and `value` are both present, render `name=value`, join with `"; "`. -/
def extract_cookies_string (cs : List (Option String × Option String)) : String :=
  String.intercalate "; " (cs.filterMap fun p =>
    match p.1, p.2 with
    | some n, some v => some (n ++ "=" ++ v)
    | _, _ => Option.none)

/-- `headers.pop(k, None)`: remove the entry with key `k`, if any. -/
def headerPop (hs : List (String × String)) (k : String) : List (String × String) :=
  hs.filter (fun p => ¬ p.1 = k)

/-- `headers[k] = v`: overwrite the existing entry in place, or append one. -/
def headerSet (hs : List (String × String)) (k v : String) : List (String × String) :=
  if hs.any (fun p => p.1 = k) then hs.map (fun p => if p.1 = k then (k, v) else p)
  else hs ++ [(k, v)]

/-- Embedding of `refresh_cookies()` run at instant `now` with the given
browser outcome: returns the Python return value and the successor state.
Faithful to the source, no branch assigns `last_refresh_time`. -/
def refresh_cookies (m : NASDAQCookieManager) (now : Int) (outcome : BrowserOutcome) :
    Bool × NASDAQCookieManager :=
  if needs_refresh m now = false then (true, m)
  else
    match outcome with
    | .failure => (true, m)
    | .cookies cs =>
      if cs.isEmpty then (true, { m with headers := headerPop m.headers "cookie" })
      else (true, { m with headers := headerSet m.headers "cookie" (extract_cookies_string cs) })

/-!
## The company-profile fetcher
(`src/nasdaq/fetchers/financial.py`, `fetch_company_profile`)

After the HTTP fetch (whose successful JSON body is the input here), the
source runs `data = json_data.get("data", {})`, returns `""` when `data is
None`, and otherwise returns
`data.get("CompanyDescription", {}).get("value", "")`; the surrounding
`try/except Exception` converts every raised exception (for example the
`AttributeError` from calling `.get` on a non-dictionary) into `""`.
-/

/-- The `try` body of `fetch_company_profile`, applied to the parsed JSON
response body, with the `AttributeError` of each `.get` on a non-dictionary
written out: `json_data.get("data", {})`, the `data is None` early return,
then `data.get("CompanyDescription", {}).get("value", "")`. -/
def company_profile_body (body : PyVal) : Except PyExc PyVal :=
  match body with
  | .dict es =>
    match dictGetD es "data" (.dict []) with
    | .none => .ok (.str "")
    | .dict ds =>
      match dictGetD ds "CompanyDescription" (.dict []) with
      | .dict cs => .ok (dictGetD cs "value" (.str ""))
      | _ => .error .attributeError
    | _ => .error .attributeError
  | _ => .error .attributeError

/-- Embedding of `fetch_company_profile` from the response body on: the
`except Exception` clause converts every exception into `""`. -/
def fetch_company_profile (body : PyVal) : PyVal :=
  match company_profile_body body with
  | .ok v => v
  | .error _ => .str ""

/-- Modelled from the spec (and amended per the counterexample): the fetcher
returns the value found at `data.CompanyDescription.value` whenever that path
consists of dictionaries, and the empty string in every other case. -/
def spec_company_profile (body : PyVal) : PyVal :=
  match body with
  | .dict es =>
    match dictGetD es "data" (.dict []) with
    | .dict ds =>
      match dictGetD ds "CompanyDescription" (.dict []) with
      | .dict cs => dictGetD cs "value" (.str "")
      | _ => .str ""
    | _ => .str ""
  | _ => .str ""

/-!
## The revenue/earnings transposition
(`src/nasdaq/fetchers/financial.py`, `fetch_revenue_earnings`)

The row-processing loop walks `range(0, len(rows), 4)` and builds, per
iteration, a quarter dictionary from `rows[i]["value1"]` (label) and the
`_safe_convert_value(rows[i+j]["value2"])` of the next three rows; any
exception inside the loop (an `IndexError` from a short final group, a
`KeyError` from a missing key, or a `TypeError` from a non-dictionary row)
makes the function return `[]`.  On success the function returns
`transposed_data[-6:]` — only the last six quarters, per its docstring.
-/

/-- One transposed quarter record. -/
structure QuarterRecord where
  quarter : PyVal
  revenue : Option PyVal
  eps : Option PyVal
  dividends : Option PyVal

/-- The row loop of `fetch_revenue_earnings`, with the source evaluation
order per group: label lookup, then each `value2` lookup and conversion; a
trailing group shorter than 4 raises `IndexError` at its first missing
index (after the lookups that precede that index succeed). -/
def revenue_rows_loop : List PyVal → Except PyExc (List QuarterRecord)
  | [] => .ok []
  | r0 :: r1 :: r2 :: r3 :: rest => do
    let label ← pySubscript r0 "value1"
    let v1 ← pySubscript r1 "value2"
    let revenue ← safe_convert_value v1 "string"
    let v2 ← pySubscript r2 "value2"
    let eps ← safe_convert_value v2 "string"
    let v3 ← pySubscript r3 "value2"
    let dividends ← safe_convert_value v3 "string"
    let qs ← revenue_rows_loop rest
    .ok (⟨label, revenue, eps, dividends⟩ :: qs)
  | [r0] => do
    let _ ← pySubscript r0 "value1"
    .error .indexError
  | [r0, r1] => do
    let _ ← pySubscript r0 "value1"
    let v1 ← pySubscript r1 "value2"
    let _ ← safe_convert_value v1 "string"
    .error .indexError
  | [r0, r1, r2] => do
    let _ ← pySubscript r0 "value1"
    let v1 ← pySubscript r1 "value2"
    let _ ← safe_convert_value v1 "string"
    let v2 ← pySubscript r2 "value2"
    let _ ← safe_convert_value v2 "string"
    .error .indexError

/-- The last `n` elements of a list (`l[-n:]`). -/
def lastN (n : Nat) (l : List α) : List α :=
  l.drop (l.length - n)

/-- The row-processing step of `fetch_revenue_earnings`: run the loop, return
`transposed_data[-6:]` on success and `[]` on any exception. -/
def process_revenue_rows (rows : List PyVal) : List QuarterRecord :=
  match revenue_rows_loop rows with
  | .ok qs => lastN 6 qs
  | .error _ => []

/-- A well-formed revenue row, as used in concrete scenarios. -/
def cRow : PyVal :=
  .dict [("value1", .str "Q1"), ("value2", .str "10")]

/-!
## The historical-quotes row-to-map step
(`src/nasdaq/fetchers/financial.py`, `fetch_historical_quotes`)

The loop executes `prices_dict[row["date"]] = {...}` for each row: the value
dictionary (five `_safe_convert_value(row.get(...))` conversions) is
evaluated first, then the key `row["date"]`; assignment into the dictionary
overwrites the entry with an equal key, or appends a new one.  The map is
modelled as an association list in insertion order with Python `==` key
comparison; an unhashable key would raise `TypeError`.
-/

/-- One value of the prices dictionary: the five converted fields of a row
(`None` results included). -/
structure QuoteEntry where
  close : Option PyVal
  volume : Option PyVal
  openv : Option PyVal
  high : Option PyVal
  low : Option PyVal

/-- Unwrap a conversion result that cannot be an exception. -/
def exDefault : Except PyExc (Option PyVal) → Option PyVal
  | .ok x => x
  | .error _ => Option.none

/-- `row.get(k)` as a total function on rows known to be dictionaries. -/
def rowGetD (r : PyVal) (k : String) : PyVal :=
  match r with
  | .dict es => dictGetD es k .none
  | _ => .none

/-- The quote entry a dictionary row denotes. -/
def entryOfRow (r : PyVal) : QuoteEntry :=
  ⟨exDefault (safe_convert_value (rowGetD r "close") "float"),
   exDefault (safe_convert_value (rowGetD r "volume") "int"),
   exDefault (safe_convert_value (rowGetD r "open") "float"),
   exDefault (safe_convert_value (rowGetD r "high") "float"),
   exDefault (safe_convert_value (rowGetD r "low") "float")⟩

/-- `x or y` on Python values: `x` when truthy, else `y`. -/
def pyOr (a b : PyVal) : PyVal :=
  if pyTruthy a then a else b

/-- The date formats `NewsArticle.__post_init__` and
`PressRelease.from_dict` try, in order. -/
def newsDateFormats : List String :=
  ["%m/%d/%Y", "%Y-%m-%d", "%b %d, %Y", "%Y-%m-%dT%H:%M:%S"]

/-- Repackage a parse result as the Python value assigned to the field
(`datetime` or `None`). -/
def optDT : Option PyDT → PyVal
  | some d => .dt d
  | Option.none => .none

/-- The `NewsArticle` dataclass; fields hold arbitrary Python values, as in
Python, with normalization applied only by `__post_init__`. -/
structure NewsArticle where
  title : PyVal
  created_date : PyVal
  publisher : PyVal
  url : PyVal
  symbol : PyVal
  summary : PyVal
  article_type : PyVal
deriving Repr

/-- `NewsArticle.__post_init__`: parse a string `created_date`, leave
anything else alone. -/
def newsPostInit (a : NewsArticle) : NewsArticle :=
  match a.created_date with
  | .str s => { a with created_date := optDT (parse_datetime_value (.str s) newsDateFormats) }
  | _ => a

/-- `to_dict`: the field map of the instance, in field order. -/
def NewsArticle.to_dict (a : NewsArticle) : List (String × PyVal) :=
  [("title", a.title), ("created_date", a.created_date), ("publisher", a.publisher),
   ("url", a.url), ("symbol", a.symbol), ("summary", a.summary),
   ("article_type", a.article_type)]

/-- `BaseModel.from_dict` specialized to `NewsArticle`: every annotated field
is read from the dictionary, the type-based default filling in when absent,
and construction runs `__post_init__`. -/
def NewsArticle.from_dict (data : List (String × PyVal)) : NewsArticle :=
  newsPostInit
    ⟨dictGetD data "title" (.str ""),
     dictGetD data "created_date" (.dt ⟨1, 1, 1, 0, 0, 0⟩),
     dictGetD data "publisher" (.str ""),
     dictGetD data "url" (.str ""),
     dictGetD data "symbol" .none,
     dictGetD data "summary" .none,
     dictGetD data "article_type" (.str "")⟩

/-- The `PressRelease` dataclass: the `NewsArticle` fields plus contact and
release-type information. -/
structure PressRelease where
  title : PyVal
  created_date : PyVal
  publisher : PyVal
  url : PyVal
  symbol : PyVal
  summary : PyVal
  article_type : PyVal
  contact_info : PyVal
  release_type : PyVal
deriving Repr

/-- `PressRelease.__post_init__` delegates to the parent `__post_init__`. -/
def prPostInit (a : PressRelease) : PressRelease :=
  match a.created_date with
  | .str s => { a with created_date := optDT (parse_datetime_value (.str s) newsDateFormats) }
  | _ => a

/-- `to_dict` for `PressRelease`, in dataclass field order. -/
def PressRelease.to_dict (a : PressRelease) : List (String × PyVal) :=
  [("title", a.title), ("created_date", a.created_date), ("publisher", a.publisher),
   ("url", a.url), ("symbol", a.symbol), ("summary", a.summary),
   ("article_type", a.article_type), ("contact_info", a.contact_info),
   ("release_type", a.release_type)]

/-- The overriding `PressRelease.from_dict(data, symbol=None)`: reads the
fields explicitly, takes `symbol` from the parameter (not from the data),
parses `created_date or created` through the format list, and hard-codes
`article_type = "press_release"`. -/
def PressRelease.from_dict (data : List (String × PyVal)) (symbol : PyVal) : PressRelease :=
  prPostInit
    ⟨dictGetD data "title" (.str ""),
     optDT (parse_datetime_value
       (pyOr (dictGetD data "created_date" .none) (dictGetD data "created" (.str "")))
       newsDateFormats),
     dictGetD data "publisher" (.str ""),
     dictGetD data "url" (.str ""),
     symbol,
     pyOr (dictGetD data "summary" .none) (dictGetD data "description" .none),
     .str "press_release",
     pyOr (dictGetD data "contact_info" .none) (dictGetD data "contactInfo" .none),
     pyOr (dictGetD data "release_type" .none) (dictGetD data "releaseType" .none)⟩

/-- A normalized press release carrying a symbol. -/
def prX : PressRelease :=
  ⟨.str "t", .dt ⟨2023, 1, 15, 0, 0, 0⟩, .str "p", .str "u", .str "AAPL",
   .none, .str "press_release", .none, .none⟩

/-- Once the traversal value has been replaced by a non-dictionary default,
`safe_get_nested` keeps returning that default. -/
theorem safe_get_nested_stuck (keys : List String) (default : PyVal)
    (h : isDict default = false) :
    safe_get_nested default keys default = default := by
  cases keys with
  | nil => rfl
  | cons k ks => cases default <;> first
      | rfl
      | simp [isDict] at h

/-- C3: for every dictionary, every non-empty key path and every provided
default value that is not itself a dictionary, `safe_get_nested` returns the
provided default as soon as a traversal step encounters a non-dictionary value
or an absent key (it agrees with the fail-fast reading of the spec), and it is
a total function, so it never raises.  When the default is itself a dictionary
the code instead substitutes the default into the traversal and keeps walking
inside it, which is why the hypothesis on the default is needed. -/
theorem safe_get_nested_matches_spec (data : PyVal) (keys : List String)
    (default : PyVal) (_hk : keys ≠ []) (hd : isDict default = false) :
    safe_get_nested data keys default = spec_get_nested data keys default := by
  clear _hk
  induction keys generalizing data with
  | nil => rfl
  | cons k ks ih =>
    cases data with
    | dict es =>
      show safe_get_nested (dictGetD es k default) ks default = _
      cases hl : dictLookup es k with
      | some v =>
        rw [dictGetD, hl, Option.getD_some, ih]
        simp [spec_get_nested, hl]
      | none =>
        rw [dictGetD, hl, Option.getD_none, safe_get_nested_stuck ks default hd]
        simp [spec_get_nested, hl]
    | none => rfl
    | bool b => rfl
    | int n => rfl
    | float q => rfl
    | str s => rfl
    | list xs => rfl
    | dt d => rfl

/-- Closed witness for `safe_get_nested_matches_spec`, evaluating the lookup
on a concrete nested dictionary. -/
theorem safe_get_nested_matches_spec_witness :
    (["level1", "level2"] : List String) ≠ [] ∧
    isDict (PyVal.str "default") = false ∧
    safe_get_nested (PyVal.dict [("level1", PyVal.dict [("other", PyVal.int 3)])])
      ["level1", "level2"] (PyVal.str "default")
      = spec_get_nested (PyVal.dict [("level1", PyVal.dict [("other", PyVal.int 3)])])
      ["level1", "level2"] (PyVal.str "default") :=
  ⟨by decide, rfl,
    safe_get_nested_matches_spec _ _ _ (by decide) rfl⟩

/-- C3 counterexample: with a default value that is itself a dictionary, the
first traversal step hits an absent key, yet `safe_get_nested` does not return
the provided default — it substitutes the default into the traversal and
returns a value found inside it. -/
theorem safe_get_nested_dict_default_counterexample :
    safe_get_nested (PyVal.dict []) ["a", "x"] (PyVal.dict [("x", PyVal.int 5)])
      = PyVal.int 5 ∧
    PyVal.int 5 ≠ PyVal.dict [("x", PyVal.int 5)] :=
  ⟨rfl, fun h => PyVal.noConfusion h⟩

example : safe_convert_value (.str "$177.80") "float" = .ok (some (.float (mkRat 1778 10))) := rfl

example : safe_convert_value (.str "45,678,912") "int" = .ok (some (.int 45678912)) := rfl

example : safe_convert_value (.str "12x") "int" = .ok Option.none := rfl

example : safe_convert_value (.float 0) "float" = .ok Option.none := rfl

example : safe_convert_value (.int 0) "int" = .ok Option.none := rfl

example : safe_convert_value (.str "") "string" = .ok Option.none := rfl

example : safe_convert_value (.list [.int 1]) "float" = .ok Option.none := rfl

/-- Formats that all fail to parse the (stripped) input are skipped by the
format loop. -/
theorem firstParse_skip (s : String) (fs1 rest : List String)
    (h : ∀ g ∈ fs1, strptime (pyStrip s.data) g.data = Option.none) :
    firstParse s (fs1 ++ rest) = firstParse s rest := by
  induction fs1 with
  | nil => rfl
  | cons g gs ih =>
    have hg := h g (by simp)
    rw [List.cons_append, firstParse, hg]
    exact ih (fun x hx => h x (by simp [hx]))

/-- C6: `parse_datetime_value` tries the formats in the given priority order
and returns the result of the first format whose `strptime` succeeds on the
stripped input; it returns `None` when every format fails, when the input is
`None` or the empty string; a `datetime` input passes through unchanged; and
with formats `%m/%d/%Y`, `%Y-%m-%d` the input `01/15/2023` parses to year
2023, month 1, day 15. -/
theorem parse_datetime_value_spec :
    (∀ (s : String) (fs1 fs2 : List String) (f : String) (d : PyDT), s ≠ "" →
      (∀ g ∈ fs1, strptime (pyStrip s.data) g.data = Option.none) →
      strptime (pyStrip s.data) f.data = some d →
      parse_datetime_value (.str s) (fs1 ++ f :: fs2) = some d)
    ∧ (∀ (s : String) (fs : List String),
      (∀ g ∈ fs, strptime (pyStrip s.data) g.data = Option.none) →
      parse_datetime_value (.str s) fs = Option.none)
    ∧ (∀ fs : List String, parse_datetime_value .none fs = Option.none)
    ∧ (∀ fs : List String, parse_datetime_value (.str "") fs = Option.none)
    ∧ (∀ (d : PyDT) (fs : List String), parse_datetime_value (.dt d) fs = some d)
    ∧ parse_datetime_value (.str "01/15/2023") ["%m/%d/%Y", "%Y-%m-%d"]
        = some ⟨2023, 1, 15, 0, 0, 0⟩ := by
  refine ⟨?_, ?_, fun _ => rfl, fun _ => rfl, fun _ _ => rfl, by decide⟩
  · intro s fs1 fs2 f d hs hfail hok
    simp only [parse_datetime_value, if_neg hs]
    rw [firstParse_skip s fs1 _ hfail, firstParse, hok]
  · intro s fs hfail
    simp only [parse_datetime_value]
    split
    · rfl
    · have h2 : firstParse s (fs ++ []) = firstParse s [] := firstParse_skip s fs [] hfail
      rw [List.append_nil] at h2
      exact h2

/-- Closed witness for `parse_datetime_value_spec`, exercising the
first-success clause on the concrete input `01/15/2023`. -/
theorem parse_datetime_value_spec_witness :
    ("01/15/2023" : String) ≠ ""
    ∧ strptime (pyStrip "01/15/2023".data) "%m/%d/%Y".data = some ⟨2023, 1, 15, 0, 0, 0⟩
    ∧ parse_datetime_value (.str "01/15/2023") (([] : List String) ++ "%m/%d/%Y" :: ["%Y-%m-%d"])
        = some ⟨2023, 1, 15, 0, 0, 0⟩ :=
  ⟨by decide, by decide,
    parse_datetime_value_spec.1 "01/15/2023" [] ["%Y-%m-%d"] "%m/%d/%Y" ⟨2023, 1, 15, 0, 0, 0⟩
      (by decide) (fun g hg => absurd hg (List.not_mem_nil g)) (by decide)⟩

/-- The `"float"` conversion path of `_safe_convert_value` raises only
exception kinds that its `except` clause catches. -/
theorem floatConv_caught (w : PyVal) :
    ∃ r, catchConv (Except.map PyVal.float (pyFloatConv w)) = .ok r := by
  cases w with
  | str s => cases h : pyFloatOfChars s.data <;> simp [pyFloatConv, h, Except.map, catchConv]
  | _ => exact ⟨_, rfl⟩

/-- The `"int"` conversion path of `_safe_convert_value` raises only
exception kinds that its `except` clause catches. -/
theorem intConv_caught (w : PyVal) :
    ∃ r, catchConv (Except.map PyVal.int (pyIntConv w)) = .ok r := by
  cases w with
  | str s => cases h : pyIntOfChars s.data <;> simp [pyIntConv, h, Except.map, catchConv]
  | _ => exact ⟨_, rfl⟩

/-- A value that strips to an integer was that integer. -/
theorem stripFloatChars_int (v : PyVal) (n : Int) (h : stripFloatChars v = .int n) :
    v = .int n := by
  cases v <;> simp_all [stripFloatChars]

/-- The refined `"float"` conversion path either returns normally or
propagates the `OverflowError` of an out-of-range integer. -/
theorem floatConvOvf_cases (w : PyVal) :
    (∃ r, catchConv (Except.map PyVal.float (pyFloatConvOvf w)) = .ok r)
    ∨ (∃ n : Int, w = .int n ∧ intOverflowsFloat n = true
        ∧ catchConv (Except.map PyVal.float (pyFloatConvOvf w)) = .error .overflowError) := by
  cases w with
  | str s =>
    refine Or.inl ?_
    cases h : pyFloatOfChars s.data <;>
      simp [pyFloatConvOvf, h, Except.map, catchConv]
  | int n =>
    by_cases hov : intOverflowsFloat n = true
    · exact Or.inr ⟨n, rfl, hov, by simp [pyFloatConvOvf, hov, Except.map, catchConv]⟩
    · exact Or.inl ⟨some (.float (n : Rat)),
        by simp [pyFloatConvOvf, hov, Except.map, catchConv]⟩
  | none => exact Or.inl ⟨_, rfl⟩
  | bool b => exact Or.inl ⟨_, rfl⟩
  | float q => exact Or.inl ⟨_, rfl⟩
  | list xs => exact Or.inl ⟨_, rfl⟩
  | dict es => exact Or.inl ⟨_, rfl⟩
  | dt d => exact Or.inl ⟨_, rfl⟩

/-- Wherever no integer overflows the double range, the overflow-aware
refinement of `parse_monetary_value` agrees with the exact rational model
used above. -/
theorem parse_monetary_value_ovf_agrees (v : PyVal)
    (h : ∀ n : Int, v = .int n → intOverflowsFloat n = false) :
    parse_monetary_value_ovf v = parse_monetary_value v := by
  cases v with
  | int n =>
    have hn := h n rfl
    have e1 : parse_monetary_value_ovf (.int n)
        = if intOverflowsFloat n = true then .error .overflowError
          else .ok (some (n : Rat)) := rfl
    have e2 : parse_monetary_value (.int n) = .ok (some (n : Rat)) := rfl
    rw [e1, e2, hn]
    simp
  | none => rfl
  | bool b => rfl
  | float q => rfl
  | str s => rfl
  | list xs => rfl
  | dict es => rfl
  | dt d => rfl

/-- C5 counterexample: the normalizers are not total over every possible
input.  `parse_monetary_value` raises an uncaught `TypeError` on the
unhashable input `[]` (the sentinel membership test hashes the value); and
on an integer beyond the double range — `2^2000` here, `10**400` equally in
CPython — a hashable input of the annotated type, `float(value)`, which
sits outside any `try`, raises an uncaught `OverflowError`, exhibited in
the overflow-aware refinement; the `"float"` path of `_safe_convert_value`
propagates the same `OverflowError`, which its `except` clause does not
name. -/
theorem normalizers_raise_counterexample :
    parse_monetary_value (.list []) = .error PyExc.typeError
    ∧ intOverflowsFloat (Int.ofNat (Nat.shiftLeft 1 2000)) = true
    ∧ parse_monetary_value_ovf (.int (Int.ofNat (Nat.shiftLeft 1 2000)))
        = .error PyExc.overflowError
    ∧ safe_convert_value_ovf (.int (Int.ofNat (Nat.shiftLeft 1 2000))) "float"
        = .error PyExc.overflowError :=
  ⟨rfl, by decide, by decide, rfl⟩

/-- C5 (amended): the three normalizers are not total over every possible
input, and their failure modes are exactly these: `parse_monetary_value`
raises `TypeError` on unhashable inputs and `OverflowError` on integers at
or beyond the double range, and otherwise returns normally;
`_safe_convert_value` propagates `OverflowError` from `float(value)` on an
out-of-range integer under the `"float"` conversion type, and otherwise
returns normally for every input and conversion type (its `except` clause
covers every other kind its conversions raise); `parse_datetime_value`
never raises (its only internal exception, `ValueError` from `strptime`,
is always caught); and malformed inputs map to `None` rather than
aborting. -/
theorem normalizers_failure_modes :
    (∀ v : PyVal,
      (∃ r, parse_monetary_value_ovf v = .ok r)
      ∨ (pyHashable v = false ∧ parse_monetary_value_ovf v = .error .typeError)
      ∨ (∃ n : Int, v = .int n ∧ intOverflowsFloat n = true
          ∧ parse_monetary_value_ovf v = .error .overflowError))
    ∧ (∀ (v : PyVal) (ct : String),
      (∃ r, safe_convert_value_ovf v ct = .ok r)
      ∨ (ct = "float" ∧ ∃ n : Int, v = .int n ∧ intOverflowsFloat n = true
          ∧ safe_convert_value_ovf v ct = .error .overflowError))
    ∧ parse_monetary_value_ovf (.str "abc") = .ok Option.none
    ∧ parse_datetime_value (.str "abc") ["%m/%d/%Y"] = Option.none
    ∧ safe_convert_value_ovf (.str "12x") "int" = .ok Option.none := by
  refine ⟨?_, ?_, rfl, by decide, rfl⟩
  · intro v
    cases v with
    | list xs => exact Or.inr (Or.inl ⟨rfl, rfl⟩)
    | dict es => exact Or.inr (Or.inl ⟨rfl, rfl⟩)
    | none => exact Or.inl ⟨_, rfl⟩
    | bool b => exact Or.inl ⟨_, rfl⟩
    | float q => exact Or.inl ⟨_, rfl⟩
    | dt d => exact Or.inl ⟨_, rfl⟩
    | int n =>
      have e1 : parse_monetary_value_ovf (.int n)
          = if intOverflowsFloat n = true then .error .overflowError
            else .ok (some (n : Rat)) := rfl
      by_cases hov : intOverflowsFloat n = true
      · exact Or.inr (Or.inr ⟨n, rfl, hov, by rw [e1, if_pos hov]⟩)
      · exact Or.inl ⟨some (n : Rat), by rw [e1, if_neg hov]⟩
    | str s =>
      refine Or.inl ?_
      simp only [parse_monetary_value_ovf]
      rw [if_neg (by simp [pyHashable])]
      split
      · exact ⟨_, rfl⟩
      · exact ⟨_, rfl⟩
  · intro v ct
    unfold safe_convert_value_ovf
    split
    · exact Or.inl ⟨_, rfl⟩
    split
    · exact Or.inl ⟨_, rfl⟩
    split
    · rename_i hct
      rcases floatConvOvf_cases (stripFloatChars v) with ⟨r, hr⟩ | ⟨n, hn, hov, he⟩
      · exact Or.inl ⟨r, hr⟩
      · exact Or.inr ⟨hct, n, stripFloatChars_int v n hn, hov, he⟩
    split
    · rcases intConv_caught (stripIntChars v) with ⟨r, hr⟩
      exact Or.inl ⟨r, hr⟩
    · exact Or.inl ⟨_, rfl⟩

/-- A manager whose `last_refresh_time` is unset reports itself stale. -/
theorem needs_refresh_of_unset (m : NASDAQCookieManager) (now : Int)
    (h : m.last_refresh_time = Option.none) : needs_refresh m now = true := by
  unfold needs_refresh
  rw [h]

/-- C1: immediately after construction `needs_refresh()` is true — but,
against the claim, `refresh_cookies()` never assigns `last_refresh_time` on
any path (every outcome returns `True` and leaves the field untouched), so a
freshly constructed manager still reports `needs_refresh() = true` at every
later instant even after a refresh that returned `True`.  The claim describes
the legacy manager in `src/nasdaq.py`, which updates the timestamp on every
success path; in `core/cookie_manager.py` the field is initialized and read
but never written, so the interval mechanism is dead code. -/
theorem refresh_cookies_never_marks_fresh :
    (∀ (interval : Int) (hs : List (String × String)) (now : Int),
      needs_refresh (NASDAQCookieManager.init interval hs) now = true)
    ∧ (∀ (m : NASDAQCookieManager) (now : Int) (outcome : BrowserOutcome),
      (refresh_cookies m now outcome).1 = true
      ∧ (refresh_cookies m now outcome).2.last_refresh_time = m.last_refresh_time)
    ∧ (∀ (interval now later : Int) (hs : List (String × String)) (outcome : BrowserOutcome),
      needs_refresh (refresh_cookies (NASDAQCookieManager.init interval hs) now outcome).2
        later = true) := by
  have hcore : ∀ (m : NASDAQCookieManager) (now : Int) (outcome : BrowserOutcome),
      (refresh_cookies m now outcome).1 = true
      ∧ (refresh_cookies m now outcome).2.last_refresh_time = m.last_refresh_time := by
    intro m now outcome
    unfold refresh_cookies
    split
    · exact ⟨rfl, rfl⟩
    · cases outcome with
      | failure => exact ⟨rfl, rfl⟩
      | cookies cs =>
        dsimp only
        split
        · exact ⟨rfl, rfl⟩
        · exact ⟨rfl, rfl⟩
  refine ⟨fun _ _ _ => rfl, hcore, ?_⟩
  intro interval now later hs outcome
  exact needs_refresh_of_unset _ later ((hcore _ now outcome).2.trans rfl)

example : strptime "01/15/2023".data "%m/%d/%Y".data = some ⟨2023, 1, 15, 0, 0, 0⟩ := by decide

example : strptime "2023-01-15".data "%Y-%m-%d".data = some ⟨2023, 1, 15, 0, 0, 0⟩ := by decide

example : strptime "02/30/2023".data "%m/%d/%Y".data = Option.none := by decide

example : strptime "Mar 5, 2021".data "%b %d, %Y".data = some ⟨2021, 3, 5, 0, 0, 0⟩ := by decide

example : strptime "2023-01-15T07:08:09".data "%Y-%m-%dT%H:%M:%S".data
    = some ⟨2023, 1, 15, 7, 8, 9⟩ := by decide

example : parse_datetime_value (.str "01/15/2023") ["%m/%d/%Y", "%Y-%m-%d"]
    = some ⟨2023, 1, 15, 0, 0, 0⟩ := by decide

/-- C7 counterexample: the fetcher does not always return a string — when the
response carries a non-string at `data.CompanyDescription.value` (here the
integer 42), that value is returned as-is. -/
theorem fetch_company_profile_nonstring_counterexample :
    fetch_company_profile
      (.dict [("data", .dict [("CompanyDescription", .dict [("value", .int 42)])])])
      = .int 42
    ∧ isStr (.int 42) = false :=
  ⟨rfl, rfl⟩

/-- C7 (amended): on the synthetic body with `CompanyDescription.value` equal
to `"Test description"` the fetcher returns exactly that string; on the body
whose `data` is `None` it returns `""`; and for every response body it
returns, without propagating any exception, the value at
`data.CompanyDescription.value` when the path exists (a string whenever the
body is well-typed there) and the empty string otherwise. -/
theorem fetch_company_profile_spec :
    fetch_company_profile
      (.dict [("data", .dict [("CompanyDescription",
        .dict [("value", .str "Test description")])])]) = .str "Test description"
    ∧ fetch_company_profile (.dict [("data", .none)]) = .str ""
    ∧ (∀ body : PyVal, fetch_company_profile body = spec_company_profile body) := by
  refine ⟨rfl, rfl, ?_⟩
  intro body
  cases body with
  | dict es =>
    unfold fetch_company_profile company_profile_body spec_company_profile
    dsimp only
    cases hd : dictGetD es "data" (.dict []) with
    | dict ds =>
      dsimp only
      cases hc : dictGetD ds "CompanyDescription" (.dict []) <;> rfl
    | none => rfl
    | bool b => rfl
    | int n => rfl
    | float q => rfl
    | str s => rfl
    | list xs => rfl
    | dt d => rfl
  | none => rfl
  | bool b => rfl
  | int n => rfl
  | float q => rfl
  | str s => rfl
  | list xs => rfl
  | dt d => rfl

example : (process_revenue_rows (List.replicate 8 cRow)).length = 2 := by decide

example : process_revenue_rows (List.replicate 7 cRow) = [] := rfl

example : (process_revenue_rows (List.replicate 28 cRow)).length = 6 := by decide

/-- A successful run of the revenue row loop consumed a row count divisible
by 4 and produced one quarter record per group of 4. -/
theorem revenue_rows_loop_ok_length_aux :
    ∀ (n : Nat) (rows : List PyVal) (qs : List QuarterRecord), rows.length ≤ n →
      revenue_rows_loop rows = .ok qs →
      qs.length = rows.length / 4 ∧ 4 ∣ rows.length := by
  intro n
  induction n with
  | zero =>
    intro rows qs hle h
    cases rows with
    | nil =>
      cases h
      exact ⟨rfl, ⟨0, rfl⟩⟩
    | cons r rest => simp at hle
  | succ n ih =>
    intro rows qs hle h
    match rows with
    | [] =>
      cases h
      exact ⟨rfl, ⟨0, rfl⟩⟩
    | [r0] =>
      simp only [revenue_rows_loop, bind, Except.bind] at h
      split at h <;> simp at h
    | [r0, r1] =>
      simp only [revenue_rows_loop, bind, Except.bind] at h
      split at h <;> try simp at h
      split at h <;> try simp at h
      split at h <;> simp at h
    | [r0, r1, r2] =>
      simp only [revenue_rows_loop, bind, Except.bind] at h
      split at h <;> try simp at h
      split at h <;> try simp at h
      split at h <;> try simp at h
      split at h <;> try simp at h
      split at h <;> simp at h
    | r0 :: r1 :: r2 :: r3 :: rest =>
      simp only [revenue_rows_loop, bind, Except.bind] at h
      split at h <;> try simp at h
      split at h <;> try simp at h
      split at h <;> try simp at h
      split at h <;> try simp at h
      split at h <;> try simp at h
      split at h <;> try simp at h
      split at h <;> try simp at h
      split at h <;> try simp at h
      rename_i qs' hqs'
      cases h
      have hrest : rest.length ≤ n := by
        simp at hle
        omega
      obtain ⟨hlen, k, hk⟩ := ih rest qs' hrest hqs'
      constructor
      · simp [hlen, hk]
        omega
      · exact ⟨k + 1, by simp [hk]; omega⟩

/-- C2 counterexample: 28 well-formed rows (7 complete groups of 4) yield
only 6 quarter records, not `len(rows)/4 = 7` — the function keeps only
`transposed_data[-6:]`. -/
theorem fetch_revenue_earnings_length_counterexample :
    (process_revenue_rows (List.replicate 28 cRow)).length = 6
    ∧ (List.replicate 28 cRow : List PyVal).length / 4 = 7
    ∧ (6 : Nat) ≠ 7 :=
  ⟨by decide, by decide, by decide⟩

/-- C2 (amended): on a successful run the loop produces exactly
`len(rows)/4` quarter records — one per consecutive group of 4, the label
from row `i` under key `value1` and the revenue/eps/dividends conversions
from rows `i+1`, `i+2`, `i+3` under key `value2` — of which the function
returns only the last six; a row count not divisible by 4, or any exception
in a group (such as a missing expected key), yields the empty list. -/
theorem fetch_revenue_earnings_spec :
    (∀ (rows : List PyVal) (qs : List QuarterRecord),
      revenue_rows_loop rows = .ok qs →
      4 ∣ rows.length ∧ qs.length = rows.length / 4
        ∧ process_revenue_rows rows = lastN 6 qs)
    ∧ (∀ rows : List PyVal, ¬ (4 ∣ rows.length) → process_revenue_rows rows = [])
    ∧ (∀ (rows : List PyVal) (e : PyExc),
        revenue_rows_loop rows = .error e → process_revenue_rows rows = [])
    ∧ (∀ (r0 r1 r2 r3 : PyVal) (rest : List PyVal) (label v1 v2 v3 : PyVal)
        (rev eps divi : Option PyVal) (qs : List QuarterRecord),
        pySubscript r0 "value1" = .ok label →
        pySubscript r1 "value2" = .ok v1 → safe_convert_value v1 "string" = .ok rev →
        pySubscript r2 "value2" = .ok v2 → safe_convert_value v2 "string" = .ok eps →
        pySubscript r3 "value2" = .ok v3 → safe_convert_value v3 "string" = .ok divi →
        revenue_rows_loop rest = .ok qs →
        revenue_rows_loop (r0 :: r1 :: r2 :: r3 :: rest)
          = .ok (⟨label, rev, eps, divi⟩ :: qs))
    ∧ (process_revenue_rows (List.replicate 8 cRow)).length = 2
    ∧ process_revenue_rows (List.replicate 7 cRow) = []
    ∧ process_revenue_rows [cRow, .dict [("value1", .str "Q")], cRow, cRow] = [] := by
  refine ⟨?_, ?_, ?_, ?_, by decide, rfl, rfl⟩
  · intro rows qs h
    obtain ⟨hlen, hdvd⟩ := revenue_rows_loop_ok_length_aux rows.length rows qs le_rfl h
    refine ⟨hdvd, hlen, ?_⟩
    unfold process_revenue_rows
    rw [h]
  · intro rows hnd
    unfold process_revenue_rows
    cases hl : revenue_rows_loop rows with
    | ok qs =>
      exact absurd (revenue_rows_loop_ok_length_aux rows.length rows qs le_rfl hl).2 hnd
    | error e => rfl
  · intro rows e h
    unfold process_revenue_rows
    rw [h]
  · intro r0 r1 r2 r3 rest label v1 v2 v3 rev eps divi qs h1 h2 h3 h4 h5 h6 h7 h8
    simp only [revenue_rows_loop, bind, Except.bind, h1, h2, h3, h4, h5, h6, h7, h8]

/-- `_safe_convert_value` always returns normally. -/
theorem safe_convert_value_isOk (v : PyVal) (ct : String) :
    ∃ r, safe_convert_value v ct = .ok r := by
  unfold safe_convert_value
  split
  · exact ⟨_, rfl⟩
  split
  · exact ⟨_, rfl⟩
  split
  · exact floatConv_caught (stripFloatChars v)
  split
  · exact intConv_caught (stripIntChars v)
  · exact ⟨_, rfl⟩

/-- `_safe_convert_value` returns exactly its `exDefault` unwrapping. -/
theorem safe_convert_value_eq_ok (v : PyVal) (ct : String) :
    safe_convert_value v ct = .ok (exDefault (safe_convert_value v ct)) := by
  obtain ⟨r, hr⟩ := safe_convert_value_isOk v ct
  rw [hr]
  rfl

/-- Closed witness for `fetch_revenue_earnings_spec`, instantiating the
success clause on 8 well-formed rows (2 quarters). -/
theorem fetch_revenue_earnings_spec_witness :
    revenue_rows_loop (List.replicate 8 cRow)
      = .ok [⟨.str "Q1", some (.str "10"), some (.str "10"), some (.str "10")⟩,
             ⟨.str "Q1", some (.str "10"), some (.str "10"), some (.str "10")⟩]
    ∧ (4 ∣ (List.replicate 8 cRow : List PyVal).length
      ∧ ([⟨.str "Q1", some (.str "10"), some (.str "10"), some (.str "10")⟩,
          ⟨.str "Q1", some (.str "10"), some (.str "10"), some (.str "10")⟩]
            : List QuarterRecord).length = (List.replicate 8 cRow : List PyVal).length / 4
      ∧ process_revenue_rows (List.replicate 8 cRow)
          = lastN 6 [⟨.str "Q1", some (.str "10"), some (.str "10"), some (.str "10")⟩,
                     ⟨.str "Q1", some (.str "10"), some (.str "10"), some (.str "10")⟩]) :=
  ⟨rfl, fetch_revenue_earnings_spec.1 _ _ rfl⟩

/-- C10: `_safe_convert_value` maps every falsy input (the numbers 0 and 0.0,
the empty string, `None`, `False`, empty containers) to `None` before
attempting any conversion, for every conversion type; in particular a
historical-quote field whose raw value is the number zero is stored as `None`
in the quote entry. -/
theorem safe_convert_value_falsy_none :
    (∀ (v : PyVal) (ct : String), pyTruthy v = false → safe_convert_value v ct = .ok Option.none)
    ∧ safe_convert_value (.float 0) "float" = .ok Option.none
    ∧ safe_convert_value (.float 0) "int" = .ok Option.none
    ∧ safe_convert_value (.float 0) "string" = .ok Option.none
    ∧ safe_convert_value (.int 0) "float" = .ok Option.none
    ∧ safe_convert_value (.int 0) "int" = .ok Option.none
    ∧ safe_convert_value (.int 0) "string" = .ok Option.none
    ∧ safe_convert_value (.str "") "float" = .ok Option.none
    ∧ safe_convert_value (.str "") "int" = .ok Option.none
    ∧ safe_convert_value (.str "") "string" = .ok Option.none
    ∧ (entryOfRow (.dict [("date", .str "2023-01-15"),
        ("close", .float 0), ("volume", .int 0)])).close = Option.none
    ∧ (entryOfRow (.dict [("date", .str "2023-01-15"),
        ("close", .float 0), ("volume", .int 0)])).volume = Option.none := by
  refine ⟨?_, rfl, rfl, rfl, rfl, rfl, rfl, rfl, rfl, rfl, rfl, rfl⟩
  intro v ct h
  simp [safe_convert_value, h]

/-- Closed witness for `safe_convert_value_falsy_none`: the falsy clause at
the number zero. -/
theorem safe_convert_value_falsy_none_witness :
    pyTruthy (.float 0) = false
    ∧ safe_convert_value (.float 0) "float" = .ok Option.none :=
  ⟨rfl, safe_convert_value_falsy_none.1 (.float 0) "float" rfl⟩

/-- C9 counterexample: the round trip fails for `PressRelease` — its
`from_dict` takes `symbol` from a parameter defaulting to `None` and ignores
the serialized `symbol` entry, so `from_dict(to_dict(x))` loses the symbol
of `x`. -/
theorem press_release_round_trip_counterexample :
    (PressRelease.from_dict (PressRelease.to_dict prX) .none).symbol = PyVal.none
    ∧ prX.symbol = .str "AAPL"
    ∧ PyVal.none ≠ PyVal.str "AAPL" :=
  ⟨rfl, rfl, fun hh => PyVal.noConfusion hh⟩

/-- C9 (amended): for every record built from already-normalized field values
whose `from_dict` restores each serialized field — shown here for
`NewsArticle`, which uses the generic `BaseModel` mechanism — reconstructing
via `from_dict` applied to `to_dict` yields a record with all fields equal.
(`PressRelease`, whose overridden `from_dict` drops the serialized symbol and
forces the article type, is the exception; see the counterexample.) -/
theorem news_article_round_trip (a : NewsArticle) (h : isStr a.created_date = false) :
    NewsArticle.from_dict (NewsArticle.to_dict a) = a := by
  obtain ⟨t, c, p, u, sy, su, ty⟩ := a
  have hrfl : NewsArticle.from_dict (NewsArticle.to_dict ⟨t, c, p, u, sy, su, ty⟩)
      = newsPostInit ⟨t, c, p, u, sy, su, ty⟩ := rfl
  rw [hrfl]
  cases c <;> first
    | rfl
    | simp [isStr] at h

/-- Closed witness for `news_article_round_trip`, at a concrete normalized
article. -/
theorem news_article_round_trip_witness :
    isStr (NewsArticle.created_date
      ⟨.str "T", .dt ⟨2023, 1, 15, 0, 0, 0⟩, .str "P", .str "U", .none, .none,
       .str "news"⟩) = false
    ∧ NewsArticle.from_dict (NewsArticle.to_dict
        ⟨.str "T", .dt ⟨2023, 1, 15, 0, 0, 0⟩, .str "P", .str "U", .none, .none,
         .str "news"⟩)
      = ⟨.str "T", .dt ⟨2023, 1, 15, 0, 0, 0⟩, .str "P", .str "U", .none, .none,
         .str "news"⟩ :=
  ⟨rfl, news_article_round_trip _ rfl⟩

end NasdaqSpec
